import Mathlib

/-!
Verification of the probing and aggregation engine of the cyber-net-watch
repository: a shallow embedding of the per-target ping tick handler
(src/src/components/PingPanel.tsx), the prober `performPing`, the Index
page's status aggregator, connection-lost notification and internet
connectivity window (src/src/components/AddPanelButton.tsx, embedded
Index page, and src/unnamed/part_000 / part_001), together with theorems
about the claimed behaviour.

JavaScript numbers are embedded as `Nat` (integer counters, millisecond
values, 0/1 loss samples) and `Rat` for the percentage arithmetic; all
values that flow through these computations are small non-negative
quantities for which IEEE double arithmetic is exact or (in the single
`< 10` threshold comparison on `lost/total*100` with `total ≤ 20`)
agrees with exact rational arithmetic, so `Rat` is a faithful model.
Nondeterministic inputs (Math.random draws, fetch results, clock reads)
are passed in explicitly as environment data.
-/

namespace NetWatch

/-- Status of one ping attempt (PingPanel.tsx: `'success' | 'error' | 'timeout'`). -/
inductive PingStatus
  | success
  | timeout
  | error
deriving DecidableEq, Repr

/-- `interface PingResult` from PingPanel.tsx: timestamp (Date, modelled as
Nat milliseconds), status, optional responseTime, optional error message. -/
structure PingResult where
  timestamp : Nat
  status : PingStatus
  responseTime : Option Nat := none
  error : Option String := none
deriving DecidableEq, Repr

/-- Per-panel derived status (`'online' | 'offline' | 'error'`). -/
inductive PanelStatus
  | online
  | offline
  | error
deriving DecidableEq, Repr

/-- Overall system status returned by `getOverallStatus` (the per-panel
statuses plus `'unknown'`). -/
inductive OverallStatus
  | online
  | offline
  | error
  | unknown
deriving DecidableEq, Repr

/-- `getOverallStatus` from the Index page (src/unnamed/part_000 lines 66-72,
identically embedded in AddPanelButton.tsx lines 204-210): `statuses` is
`Object.values(panelStatuses)`; any `'error'` wins, then any `'offline'`,
then `.every(s => s === 'online')`, else `'unknown'`. -/
def getOverallStatus (statuses : List PanelStatus) : OverallStatus :=
  if statuses.any (fun s => s == PanelStatus.error) then OverallStatus.error
  else if statuses.any (fun s => s == PanelStatus.offline) then OverallStatus.offline
  else if statuses.all (fun s => s == PanelStatus.online) then OverallStatus.online
  else OverallStatus.unknown

/-- The tick handler's history update (PingPanel.tsx lines 119-122):
`[result, ...prev].slice(0, 100)`. -/
def tickResults (result : PingResult) (prev : List PingResult) : List PingResult :=
  (result :: prev).take 100

/-- A thrown JavaScript value as observed by `performPing`'s catch block:
either an `Error` instance with its `name` and `message`, or a non-`Error`
value (for which the catch substitutes `'Unknown error'`). -/
inductive Thrown
  | jsError (nm : String) (message : String)
  | nonError
deriving DecidableEq, Repr

/-- Outcome of the real `fetch` call in the hostname branch of `performPing`:
it either resolves (with the elapsed milliseconds measured afterwards) or
throws. An abort fired by the 5000 ms timer surfaces as a thrown
`DOMException` whose `name` is `"AbortError"`. -/
inductive FetchOutcome
  | ok (elapsed : Nat)
  | thrown (t : Thrown)
deriving DecidableEq, Repr

/-- Environment data consumed by one `performPing` call: the completion clock
reading (`new Date()`), the simulated round-trip elapsed time in the IPv4
branch (`Math.round(performance.now() - start)` after the
`Math.random() * 100 + 10` ms wait), the `Math.random() < 0.05` failure
draw, and the fetch outcome for the hostname branch. -/
structure ProbeEnv where
  now : Nat
  simDelay : Nat
  simFail : Bool
  fetchOutcome : FetchOutcome
deriving DecidableEq, Repr

/-- The hard request timeout configured in `performPing`
(PingPanel.tsx line 87: `setTimeout(() => controller.abort(), 5000)`). -/
def fetchTimeoutMs : Nat := 5000

/-- Split a character list on the `'.'` separator, keeping empty groups
(so `"1..2"` gives an empty middle group, as the regex would reject). -/
def splitOnDots : List Char → List (List Char)
  | [] => [[]]
  | c :: rest =>
      if c = '.' then [] :: splitOnDots rest
      else
        match splitOnDots rest with
        | [] => [[c]]
        | g :: gs => (c :: g) :: gs

/-- The IPv4-literal test of `performPing` (PingPanel.tsx line 69):
`targetUrl.match(/^\d+\.\d+\.\d+\.\d+$/)` — exactly four non-empty runs of
ASCII digits separated by dots. -/
def isIPv4Literal (s : String) : Bool :=
  match splitOnDots s.data with
  | [a, b, c, d] =>
      !a.isEmpty && !b.isEmpty && !c.isEmpty && !d.isEmpty &&
      a.all Char.isDigit && b.all Char.isDigit && c.all Char.isDigit && d.all Char.isDigit
  | _ => false

/-- The catch block of `performPing` (PingPanel.tsx lines 104-110): status is
`'timeout'` exactly when the thrown value is an `Error` whose `name` is
`'AbortError'`, otherwise `'error'`; the message is the `Error`'s own
message, or `'Unknown error'` for non-`Error` values. -/
def catchClassify (now : Nat) (t : Thrown) : PingResult :=
  match t with
  | Thrown.jsError nm message =>
      { timestamp := now,
        status := if nm = "AbortError" then PingStatus.timeout else PingStatus.error,
        error := some message }
  | Thrown.nonError =>
      { timestamp := now, status := PingStatus.error, error := some "Unknown error" }

/-- `performPing` (PingPanel.tsx lines 63-111). For an IPv4 literal the probe
is simulated: after the randomized wait it throws `new Error('Request
timeout')` when the 5% failure draw hits (an `Error` whose `name` is
`"Error"`), else resolves with `status: 'success'` and the measured elapsed
time; the fetch branch resolves with success or lands in the catch block.
The IPv4 branch reads nothing from `env.fetchOutcome` — it performs no
network request. -/
def performPing (target : String) (env : ProbeEnv) : PingResult :=
  if isIPv4Literal target then
    if env.simFail then
      catchClassify env.now (Thrown.jsError "Error" "Request timeout")
    else
      { timestamp := env.now, status := PingStatus.success, responseTime := some env.simDelay }
  else
    match env.fetchOutcome with
    | FetchOutcome.ok elapsed =>
        { timestamp := env.now, status := PingStatus.success, responseTime := some elapsed }
    | FetchOutcome.thrown t => catchClassify env.now t

/-- Derived panel status from a ping result (PingPanel.tsx lines 136-137):
`success → online`, `timeout → offline`, otherwise `error`. -/
def statusOfResult (r : PingResult) : PanelStatus :=
  if r.status == PingStatus.success then PanelStatus.online
  else if r.status == PingStatus.timeout then PanelStatus.offline
  else PanelStatus.error

/-- Sum of response times over the Success entries of a result list
(PingPanel.tsx lines 129-130: `.filter(r => r.status === 'success')
.reduce((acc, r) => acc + (r.responseTime || 0), 0)`). -/
def sumSuccessResponseTimes (l : List PingResult) : Nat :=
  (l.filter (fun r => r.status == PingStatus.success)).foldl
    (fun acc r => acc + r.responseTime.getD 0) 0

/-- `Math.round(num / den)` for non-negative integers and `den ≥ 1`:
round-half-up division, `⌊num/den + 1/2⌋ = (2*num + den) / (2*den)`. -/
def jsRound (num den : Nat) : Nat := (2 * num + den) / (2 * den)

/-- The `stats` state of a panel (`{sent, received, lost, avgTime}`). -/
structure PanelStats where
  sent : Nat
  received : Nat
  lost : Nat
  avgTime : Nat
deriving DecidableEq, Repr

/-- The tick handler's stats update (PingPanel.tsx lines 125-133):
`sent = prev.sent + 1`, `received` incremented iff success,
`lost = sent - received`, and `avgTime = Math.round(results.filter(success)
.reduce(sum responseTime) / Math.max(received, 1))`. The `closureResults`
parameter is the `results` array the interval callback reads: React gives
it the render-time value captured when the polling effect was last
(re)established, not the current history — for a freshly added panel it is
the empty list and stays empty across ticks, because a tick changes none
of the effect's dependencies. -/
def tickStats (result : PingResult) (prev : PanelStats)
    (closureResults : List PingResult) : PanelStats :=
  let sent := prev.sent + 1
  let received := if result.status == PingStatus.success then prev.received + 1 else prev.received
  let lost := sent - received
  let avgTime := jsRound (sumSuccessResponseTimes closureResults) (max received 1)
  ⟨sent, received, lost, avgTime⟩

/-- The React state of one target monitor touched by a tick. -/
structure MonitorState where
  results : List PingResult
  stats : PanelStats
  currentStatus : PanelStatus
deriving DecidableEq, Repr

/-- Initial panel state: `useState([])`, zeroed stats, `useState('offline')`. -/
def initMonitorState : MonitorState := ⟨[], ⟨0, 0, 0, 0⟩, PanelStatus.offline⟩

/-- One tick of the monitoring interval (PingPanel.tsx lines 116-150):
prepend the result to the bounded history, update the stats, derive the
new status. -/
def tick (closureResults : List PingResult) (st : MonitorState)
    (result : PingResult) : MonitorState :=
  { results := tickResults result st.results,
    stats := tickStats result st.stats closureResults,
    currentStatus := statusOfResult result }

/-- A sequence of ticks sharing one effect-closure snapshot. -/
def runTicks (closureResults : List PingResult) (st : MonitorState)
    (rs : List PingResult) : MonitorState :=
  rs.foldl (tick closureResults) st

/-- A successful ping result with the given timestamp and response time. -/
def mkSuccess (ts ms : Nat) : PingResult := ⟨ts, PingStatus.success, some ms, none⟩

/-- Scenario A of the spec: a freshly added target (empty effect-closure
snapshot) after three successful simulated ticks with response times
20, 30, 40 ms. -/
def scenAState : MonitorState :=
  runTicks [] initMonitorState [mkSuccess 0 20, mkSuccess 1 30, mkSuccess 2 40]

/-- JavaScript `array.slice(-20)` on the packet-loss history: keeps the (at
most) 20 most recent samples, dropping from the front. -/
def jsSliceLast20 (l : List Nat) : List Nat := l.drop (l.length - 20)

/-- The appended connectivity sample, `status === 'online' ? 0 : 1`, as a
function of the `lost` flag (`lost = (status ≠ online)`). -/
def bitOf (lost : Bool) : Nat := if lost then 1 else 0

/-- `totalPings > 0 ? (lostPings / totalPings) * 100 : 0` (AddPanelButton.tsx
embedded Index page, line 176), in exact rational arithmetic; `lostPings`
is `newHistory.reduce((sum, val) => sum + val, 0)`. -/
def packetLossPercentage (l : List Nat) : ℚ :=
  if 0 < l.length then ((l.sum : ℚ) / (l.length : ℚ)) * 100 else 0

/-- The verdict recomputation `isConnected = packetLossPercentage < 10`. -/
def connIsConnected (l : List Nat) : Bool := decide (packetLossPercentage l < 10)

/-- JS `toFixed(1)` as used on the loss percentage: the value rounded to one
decimal place. -/
def roundTenths (q : ℚ) : ℚ := (round (q * 10) : ℤ) / 10

/-- Payload of the internet-connectivity toast: the new verdict
("Internet Connected" / "Internet Disconnected") and the loss percentage
rendered via `toFixed(1)`. -/
structure ConnNotif where
  isConnected : Bool
  lossPct : ℚ
deriving DecidableEq, Repr

/-- The connectivity detector's state: `packetLossHistory` (0 = reached,
1 = lost) and `internetConnected` (`null`, i.e. `none`, before the first
verdict). -/
structure ConnState where
  samples : List Nat
  verdict : Option Bool
deriving DecidableEq, Repr

/-- One observed status sample of the designated target (AddPanelButton.tsx
embedded Index page, lines 172-196): append the 0/1 sample and keep the
last 20; once at least 10 samples are present recompute the verdict,
emitting the toast only when the previous verdict was non-null and
differs, and only while the global sound toggle is enabled. -/
def connStep (soundEnabled : Bool) (st : ConnState) (lost : Bool) :
    ConnState × Option ConnNotif :=
  let newHistory := jsSliceLast20 (st.samples ++ [bitOf lost])
  let totalPings := newHistory.length
  let pct := packetLossPercentage newHistory
  if 10 ≤ totalPings then
    let wasConnected := st.verdict
    let isConnected : Bool := connIsConnected newHistory
    let notif : Option ConnNotif :=
      match wasConnected with
      | some was =>
          if was ≠ isConnected then
            if soundEnabled then some ⟨isConnected, roundTenths pct⟩ else none
          else none
      | none => none
    (⟨newHistory, some isConnected⟩, notif)
  else
    (⟨newHistory, st.verdict⟩, none)

/-- A run of the connectivity detector from the initial state
(`packetLossHistory = []`, `internetConnected = null`) over a sequence of
loss flags; the sound toggle does not affect the state component. -/
def connRun (events : List Bool) : ConnState :=
  events.foldl (fun st b => (connStep true st b).1) ⟨[], none⟩

/-- Scenario B of the spec: 10 consecutive samples for the designated
target with exactly one loss. -/
def scenBEvents : List Bool := List.replicate 9 false ++ [true]

/-- A connectivity state about to flip: 10 samples with one loss (verdict
Disconnected); one more reached sample brings the loss ratio to 1/11 < 10%
and flips the verdict to Connected. -/
def c8FlipState : ConnState := ⟨[1, 0, 0, 0, 0, 0, 0, 0, 0, 0], some false⟩

/-- The toast payload emitted on the `c8FlipState` flip: Connected, with
loss percentage 100/11 rendered as 9.1. -/
def c8Notif : ConnNotif := ⟨true, 91 / 10⟩

/-- A registry entry of the Index page (`interface Panel`): id, target
address as given at creation, title. -/
structure Panel where
  id : String
  target : String
  title : String
deriving DecidableEq, Repr

/-- The JS record update `{...prev, [id]: status}` on `panelStatuses`,
as an association list keyed by panel id. -/
def setStatus (m : List (String × PanelStatus)) (id : String) (status : PanelStatus) :
    List (String × PanelStatus) :=
  if m.any (fun e => e.1 == id) then
    m.map (fun e => if e.1 == id then (id, status) else e)
  else m ++ [(id, status)]

/-- The JS record lookup `prev[id]` (`undefined`, i.e. `none`, when the id
has no recorded status yet). -/
def lookupStatus (m : List (String × PanelStatus)) (id : String) : Option PanelStatus :=
  (m.find? (fun e => e.1 == id)).map (fun e => e.2)

/-- The Index page's state (AddPanelButton.tsx embedded Index page, lines
136-142): the panel registry, the per-panel statuses, the global sound
toggle, and the connectivity detector's two state variables
(`internetConnected`, `packetLossHistory`). -/
structure IndexState where
  panels : List Panel
  panelStatuses : List (String × PanelStatus)
  globalSoundEnabled : Bool
  internetConnected : Option Bool
  packetLossHistory : List Nat
deriving DecidableEq, Repr

/-- `removePanel` (AddPanelButton.tsx embedded Index page, lines 155-162):
drop the panel from the registry and delete its status entry. No other
state is touched. -/
def removePanel (id : String) (st : IndexState) : IndexState :=
  { st with
    panels := st.panels.filter (fun panel => panel.id != id),
    panelStatuses := st.panelStatuses.filter (fun e => e.1 != id) }

/-- The designated-target check of `handleStatusChange` (AddPanelButton.tsx
embedded Index page, lines 170-171): the panel is looked up by the event's
`id` in the registry, and its registry-recorded `target` is compared with
the literal `'192.168.1.1'`. -/
def feedsWindow (st : IndexState) (id : String) : Bool :=
  match st.panels.find? (fun panel => panel.id == id) with
  | some panel => panel.target == "192.168.1.1"
  | none => false

/-- `handleStatusChange` of the connectivity-tracking Index page
(AddPanelButton.tsx embedded Index page, lines 164-202): record the new
status; when the event's panel is registered with address `'192.168.1.1'`,
feed the `status === 'online' ? 0 : 1` sample to the connectivity window
(`connStep`). -/
def handleStatusChangeConn (st : IndexState) (id : String) (status : PanelStatus) :
    IndexState × Option ConnNotif :=
  if feedsWindow st id then
    let out := connStep st.globalSoundEnabled ⟨st.packetLossHistory, st.internetConnected⟩
      (status != PanelStatus.online)
    ({ st with
        panelStatuses := setStatus st.panelStatuses id status,
        packetLossHistory := out.1.samples,
        internetConnected := out.1.verdict }, out.2)
  else
    ({ st with panelStatuses := setStatus st.panelStatuses id status }, none)

/-- A toast notification payload. -/
structure Toast where
  title : String
  description : String
deriving DecidableEq, Repr

/-- A panel status rendered into toast text. -/
def statusText (status : PanelStatus) : String :=
  match status with
  | PanelStatus.online => "online"
  | PanelStatus.offline => "offline"
  | PanelStatus.error => "error"

/-- `handleStatusChange` of the notification Index page (src/unnamed/part_000
lines 44-64): a "Connection Lost" toast is emitted only when a previous
status is recorded for the id (`oldStatus` truthy), it differs from the new
status, the panel is found in the registry, the new status is offline or
error, and the global sound toggle is enabled; the status record is then
updated with the new status. -/
def handleStatusChangeNotify (panels : List Panel) (soundEnabled : Bool)
    (prev : List (String × PanelStatus)) (id : String) (status : PanelStatus) :
    List (String × PanelStatus) × Option Toast :=
  let notif : Option Toast :=
    match lookupStatus prev id with
    | some oldStatus =>
        if oldStatus ≠ status then
          match panels.find? (fun panel => panel.id == id) with
          | some panel =>
              if status = PanelStatus.offline ∨ status = PanelStatus.error then
                if soundEnabled then
                  some ⟨"Connection Lost",
                    panel.title ++ " (" ++ panel.target ++ ") is " ++ statusText status⟩
                else none
              else none
          | none => none
        else none
    | none => none
  (setStatus prev id status, notif)

/-- The component-local state of one PingPanel relevant here: its own
`target` (`useState(initialTarget)`), edited through the settings Input
without notifying the Index registry. -/
structure PanelLocal where
  id : String
  target : String
deriving DecidableEq, Repr

/-- The composed application state: the Index page plus the per-panel
component-local states. -/
structure AppState where
  index : IndexState
  locals : List PanelLocal
deriving DecidableEq, Repr

/-- Editing the target in a panel's settings (PingPanel.tsx lines 336-341:
`onChange={(e) => setTarget(e.target.value)}`): only the component-local
`target` changes; the Index registry entry keeps its creation address. -/
def editPanelTarget (app : AppState) (id newTarget : String) : AppState :=
  { app with
    locals := app.locals.map (fun l => if l.id == id then ⟨l.id, newTarget⟩ else l) }

/-- Delivery of one status-changed event to the Index page. -/
def appStatusEvent (app : AppState) (id : String) (status : PanelStatus) :
    AppState × Option ConnNotif :=
  let out := handleStatusChangeConn app.index id status
  ({ app with index := out.1 }, out.2)

/-- One tick of panel `id`: probe its component-local target and report the
derived status to the Index page. -/
def appTick (app : AppState) (id : String) (env : ProbeEnv) :
    AppState × Option ConnNotif :=
  match app.locals.find? (fun l => l.id == id) with
  | some l => appStatusEvent app id (statusOfResult (performPing l.target env))
  | none => (app, none)

/-- Concrete app for C9: one panel created with the gateway address, local
state still holding that address. -/
def c9App : AppState :=
  { index := { panels := [⟨"1", "192.168.1.1", "Local Gateway"⟩],
               panelStatuses := [],
               globalSoundEnabled := true,
               internetConnected := none,
               packetLossHistory := [] },
    locals := [⟨"1", "192.168.1.1"⟩] }

/-- Concrete Index state for C5: the designated gateway target registered,
with a non-empty connectivity window and a Connected verdict. -/
def c5State : IndexState :=
  { panels := [⟨"1", "192.168.1.1", "Local Gateway"⟩],
    panelStatuses := [("1", PanelStatus.offline)],
    globalSoundEnabled := true,
    internetConnected := some true,
    packetLossHistory := [0, 1] }

end NetWatch

namespace NetWatch

/-- With no `'error'` and no `'offline'` present, every status is `'online'`
(the status type has only three values). -/
lemma all_online_of_no_error_no_offline (statuses : List PanelStatus)
    (h1 : statuses.any (fun s => s == PanelStatus.error) = false)
    (h2 : statuses.any (fun s => s == PanelStatus.offline) = false) :
    statuses.all (fun s => s == PanelStatus.online) = true := by
  induction statuses with
  | nil => rfl
  | cons s rest ih =>
    simp only [List.any_cons, Bool.or_eq_false_iff] at h1 h2
    simp only [List.all_cons, Bool.and_eq_true]
    refine ⟨?_, ih h1.2 h2.2⟩
    cases s
    · rfl
    · exact absurd h2.1 (by simp)
    · exact absurd h1.1 (by simp)

/-- C2. The claim states the overall status of the empty status set is
Unknown; the code's `.every(s => s === 'online')` is vacuously true on the
empty array, so `getOverallStatus` returns `'online'` there, not
`'unknown'`. -/
theorem C2_counterexample :
    getOverallStatus [] = OverallStatus.online
    ∧ OverallStatus.online ≠ OverallStatus.unknown := by
  exact ⟨rfl, by decide⟩

/-- C2 (amended). The overall status is Error if any target status is Error,
else Offline if any is Offline, and otherwise Online — including on the
empty status set, where the all-Online check is vacuously true; the
Unknown branch of the code is unreachable. -/
theorem C2_overall_status (statuses : List PanelStatus) :
    getOverallStatus statuses =
      (if statuses.any (fun s => s == PanelStatus.error) then OverallStatus.error
       else if statuses.any (fun s => s == PanelStatus.offline) then OverallStatus.offline
       else OverallStatus.online)
    ∧ getOverallStatus statuses ≠ OverallStatus.unknown := by
  unfold getOverallStatus
  by_cases h1 : statuses.any (fun s => s == PanelStatus.error) = true
  · simp [h1]
  · by_cases h2 : statuses.any (fun s => s == PanelStatus.offline) = true
    · simp [h1, h2]
    · have h3 := all_online_of_no_error_no_offline statuses
        (Bool.eq_false_iff.mpr h1) (Bool.eq_false_iff.mpr h2)
      simp [h1, h2, h3]

/-- C6. After a tick, the history is most-recent-first (the new result is the
head), its length never exceeds 100, and when the previous history already
holds 100 entries exactly the oldest (last) entry is evicted; below 100 no
entry is evicted. -/
theorem C6_history_ring (r : PingResult) (prev : List PingResult) :
    (tickResults r prev).head? = some r
    ∧ (tickResults r prev).length ≤ 100
    ∧ (prev.length < 100 → tickResults r prev = r :: prev)
    ∧ (prev.length = 100 → tickResults r prev = r :: prev.dropLast) := by
  refine ⟨rfl, ?_, ?_, ?_⟩
  · simp [tickResults]
  · intro h
    simp only [tickResults]
    exact List.take_of_length_le (by simp only [List.length_cons]; omega)
  · intro h
    rw [tickResults, List.dropLast_eq_take, h]
    show List.take (99 + 1) (r :: prev) = r :: List.take (100 - 1) prev
    rw [List.take_succ_cons]

/-- C6 witness: a concrete overflowing tick with a full 100-entry history
evicts exactly the oldest entry. -/
theorem C6_history_ring_witness :
    (tickResults ⟨0, PingStatus.success, some 20, none⟩
        (List.replicate 100 ⟨1, PingStatus.timeout, none, some "Request timeout"⟩)).length ≤ 100
    ∧ tickResults ⟨0, PingStatus.success, some 20, none⟩
        (List.replicate 100 ⟨1, PingStatus.timeout, none, some "Request timeout"⟩)
      = ⟨0, PingStatus.success, some 20, none⟩ ::
        (List.replicate 100 (⟨1, PingStatus.timeout, none, some "Request timeout"⟩ : PingResult)).dropLast :=
  ⟨(C6_history_ring ⟨0, PingStatus.success, some 20, none⟩
      (List.replicate 100 ⟨1, PingStatus.timeout, none, some "Request timeout"⟩)).2.1,
   (C6_history_ring ⟨0, PingStatus.success, some 20, none⟩
      (List.replicate 100 ⟨1, PingStatus.timeout, none, some "Request timeout"⟩)).2.2.2 (by simp)⟩

/-- C3. The claim states the ~5% simulated failure on an IPv4 literal is
classified as Timeout; the code throws `new Error('Request timeout')`, whose
`name` is `"Error"`, not `"AbortError"`, so the catch block classifies the
outcome as status `'error'` (carrying the message `'Request timeout'`),
never `'timeout'`. Evaluated at the failing input `8.8.8.8` with the
failure draw hit. -/
theorem C3_simulated_failure :
    performPing "8.8.8.8" ⟨0, 50, true, FetchOutcome.ok 0⟩
      = ⟨0, PingStatus.error, none, some "Request timeout"⟩
    ∧ (performPing "8.8.8.8" ⟨0, 50, true, FetchOutcome.ok 0⟩).status ≠ PingStatus.timeout := by
  exact ⟨by decide, by decide⟩

/-- C7. For a non-IPv4 address (hostname branch) every failure mode resolves
to a classified result: a resolved fetch yields Success with the elapsed
time; a thrown `AbortError` (the 5000 ms abort timer, `fetchTimeoutMs`)
yields Timeout with the underlying message; any other thrown `Error` yields
Error with the underlying message; a thrown non-`Error` value yields Error
with `'Unknown error'`. No fault propagates past the prober's boundary:
`performPing` is a total function into `PingResult`. -/
theorem C7_prober_boundary (addr : String) (env : ProbeEnv)
    (h : isIPv4Literal addr = false) :
    ((∀ t, env.fetchOutcome = FetchOutcome.ok t →
        performPing addr env = ⟨env.now, PingStatus.success, some t, none⟩)
     ∧ (∀ msg, env.fetchOutcome = FetchOutcome.thrown (Thrown.jsError "AbortError" msg) →
        performPing addr env = ⟨env.now, PingStatus.timeout, none, some msg⟩)
     ∧ (∀ nm msg, nm ≠ "AbortError" →
          env.fetchOutcome = FetchOutcome.thrown (Thrown.jsError nm msg) →
          performPing addr env = ⟨env.now, PingStatus.error, none, some msg⟩)
     ∧ (env.fetchOutcome = FetchOutcome.thrown Thrown.nonError →
        performPing addr env = ⟨env.now, PingStatus.error, none, some "Unknown error"⟩))
    ∧ fetchTimeoutMs = 5000 := by
  refine ⟨⟨?_, ?_, ?_, ?_⟩, rfl⟩
  · intro t ht
    simp [performPing, h, ht]
  · intro msg hm
    simp [performPing, h, hm, catchClassify]
  · intro nm msg hnm hm
    simp [performPing, h, hm, catchClassify, hnm]
  · intro hm
    simp [performPing, h, hm, catchClassify]

/-- C7 witness: the abort of the hostname request at the hard timeout is
classified as Timeout carrying the abort message. -/
theorem C7_prober_boundary_witness :
    performPing "example.com" ⟨7, 0, false, FetchOutcome.thrown (Thrown.jsError "AbortError" "The user aborted a request.")⟩
      = ⟨7, PingStatus.timeout, none, some "The user aborted a request."⟩ :=
  (C7_prober_boundary "example.com"
      ⟨7, 0, false, FetchOutcome.thrown (Thrown.jsError "AbortError" "The user aborted a request.")⟩
      (by decide)).1.2.1 "The user aborted a request." rfl

/-- C1. The claim states `stats.avgResponseMs` equals the mean of
`responseTimeMs` over the Success entries retained in history — 30 in
Scenario A. The code computes `avgTime` from the effect-closure snapshot
of `results` (empty for a freshly added target, and not refreshed by
ticks) divided by the all-time `received` counter, so Scenario A yields
`{sent: 3, received: 3, lost: 0, avgTime: 0}`, not 30. -/
theorem C1_avg_from_stale_snapshot :
    scenAState.stats = ⟨3, 3, 0, 0⟩ ∧ scenAState.stats.avgTime ≠ 30 :=
  ⟨by decide, by decide⟩

/-- The state component of `connStep` always stores the sliced history. -/
lemma connStep_fst_samples (soundEnabled : Bool) (st : ConnState) (lost : Bool) :
    (connStep soundEnabled st lost).1.samples = jsSliceLast20 (st.samples ++ [bitOf lost]) := by
  simp only [connStep]
  split <;> rfl

/-- Below 10 samples the verdict is left untouched. -/
lemma connStep_fst_verdict_lt (soundEnabled : Bool) (st : ConnState) (lost : Bool)
    (h : (jsSliceLast20 (st.samples ++ [bitOf lost])).length < 10) :
    (connStep soundEnabled st lost).1.verdict = st.verdict := by
  simp only [connStep]
  rw [if_neg (by omega)]

/-- From 10 samples on the verdict is recomputed from the new window. -/
lemma connStep_fst_verdict_ge (soundEnabled : Bool) (st : ConnState) (lost : Bool)
    (h : 10 ≤ (jsSliceLast20 (st.samples ++ [bitOf lost])).length) :
    (connStep soundEnabled st lost).1.verdict
      = some (connIsConnected (jsSliceLast20 (st.samples ++ [bitOf lost]))) := by
  simp only [connStep]
  rw [if_pos h]

lemma length_jsSliceLast20 (l : List Nat) :
    (jsSliceLast20 l).length = min l.length 20 := by
  simp only [jsSliceLast20, List.length_drop]
  omega

/-- Re-slicing an already sliced window after an append gives the same
window as slicing the full sequence: the window is the 20 most recent
samples of the whole event sequence. -/
lemma jsSliceLast20_append (l : List Nat) (x : Nat) :
    jsSliceLast20 (jsSliceLast20 l ++ [x]) = jsSliceLast20 (l ++ [x]) := by
  unfold jsSliceLast20
  rcases le_or_lt l.length 19 with h | h
  · have h1 : l.length - 20 = 0 := by omega
    rw [h1, List.drop_zero]
  · have hd : (l.drop (l.length - 20)).length = 20 := by
      simp only [List.length_drop]
      omega
    have h2 : (l.drop (l.length - 20) ++ [x]).length - 20 = 1 := by
      simp only [List.length_append, hd, List.length_singleton]
    have h3 : (l ++ [x]).length - 20 = l.length + 1 - 20 := by
      simp only [List.length_append, List.length_singleton]
    rw [h2, h3]
    rw [List.drop_append_of_le_length (by omega : 1 ≤ (l.drop (l.length - 20)).length)]
    rw [List.drop_append_of_le_length (by omega : l.length + 1 - 20 ≤ l.length)]
    rw [List.drop_drop]
    have h4 : l.length - 20 + 1 = l.length + 1 - 20 := by omega
    rw [h4]

lemma connRun_append (events : List Bool) (b : Bool) :
    connRun (events ++ [b]) = (connStep true (connRun events) b).1 := by
  simp [connRun, List.foldl_append]

/-- The window after a run is the slice of the whole mapped event
sequence. -/
lemma connRun_samples (events : List Bool) :
    (connRun events).samples = jsSliceLast20 (events.map bitOf) := by
  induction events using List.reverseRecOn with
  | nil => rfl
  | append_singleton es b ih =>
    rw [connRun_append, connStep_fst_samples, ih, List.map_append,
      jsSliceLast20_append]
    rfl

lemma connRun_samples_length (events : List Bool) :
    (connRun events).samples.length = min events.length 20 := by
  rw [connRun_samples, length_jsSliceLast20, List.length_map]

/-- The verdict after a run: none before 10 events, and from the 10th event
on the recomputation over the current window. -/
lemma connRun_verdict (events : List Bool) :
    (connRun events).verdict =
      if events.length < 10 then none
      else some (connIsConnected (connRun events).samples) := by
  induction events using List.reverseRecOn with
  | nil => rfl
  | append_singleton es b ih =>
    have hlen : (jsSliceLast20 ((connRun es).samples ++ [bitOf b])).length
        = min (es.length + 1) 20 := by
      rw [length_jsSliceLast20, List.length_append, connRun_samples_length]
      simp only [List.length_singleton]
      omega
    rw [connRun_append]
    by_cases h : es.length + 1 < 10
    · rw [connStep_fst_verdict_lt _ _ _ (by omega), ih,
        if_pos (by omega : es.length < 10),
        if_pos (by simp only [List.length_append, List.length_singleton]; omega)]
    · rw [connStep_fst_verdict_ge _ _ _ (by omega),
        if_neg (by simp only [List.length_append, List.length_singleton]; omega)]
      rw [← connStep_fst_samples true (connRun es) b, ← connRun_append]

/-- The Disconnected verdict is exactly the claim's threshold form
`loss/total ≥ 1/10` on a non-empty window. -/
lemma connIsConnected_false_iff (l : List Nat) (h : 0 < l.length) :
    connIsConnected l = false ↔ (1 : ℚ) / 10 ≤ (l.sum : ℚ) / (l.length : ℚ) := by
  unfold connIsConnected packetLossPercentage
  rw [if_pos h]
  simp only [decide_eq_false_iff_not, not_lt]
  constructor
  · intro h10
    linarith
  · intro h10
    linarith

/-- C4. After any run of the connectivity detector the window holds the
at most 20 most recent samples (FIFO eviction), the verdict is Unknown
(`null`) while fewer than 10 samples have been collected, and from 10
samples on the verdict is recomputed on every sample and is Disconnected
iff the loss ratio over the window is at least 1/10, Connected
otherwise. -/
theorem C4_connectivity_window (events : List Bool) :
    (connRun events).samples = jsSliceLast20 (events.map bitOf)
    ∧ (connRun events).samples.length = min events.length 20
    ∧ (events.length < 10 → (connRun events).verdict = none)
    ∧ (10 ≤ events.length →
        (connRun events).verdict = some (connIsConnected (connRun events).samples)
        ∧ (connIsConnected ((connRun events).samples) = false ↔
            (1 : ℚ) / 10 ≤ (((connRun events).samples.sum : ℚ) / ((connRun events).samples.length : ℚ)))) := by
  refine ⟨connRun_samples events, connRun_samples_length events, ?_, ?_⟩
  · intro h
    rw [connRun_verdict, if_pos h]
  · intro h
    refine ⟨by rw [connRun_verdict, if_neg (by omega)], ?_⟩
    refine connIsConnected_false_iff _ ?_
    rw [connRun_samples_length]
    omega

/-- C4 witness (Scenario B): 10 samples with exactly one loss give loss
ratio 10% and verdict Disconnected. -/
theorem C4_connectivity_window_witness :
    (connRun scenBEvents).verdict = some false := by
  have h := ((C4_connectivity_window scenBEvents).2.2.2 (by decide)).1
  have hs : (connRun scenBEvents).samples = [0, 0, 0, 0, 0, 0, 0, 0, 0, 1] :=
    ((C4_connectivity_window scenBEvents).1).trans (by decide)
  rw [h, hs]
  have hc : connIsConnected [0, 0, 0, 0, 0, 0, 0, 0, 0, 1] = false := by
    simp only [connIsConnected, packetLossPercentage, List.sum_cons, List.sum_nil,
      decide_eq_false_iff_not, not_lt]
    norm_num
  rw [hc]

/-- The post-append window of the `c8FlipState` flip step. -/
lemma c8_window :
    jsSliceLast20 (c8FlipState.samples ++ [bitOf false]) = [1, 0, 0, 0, 0, 0, 0, 0, 0, 0, 0] := by
  decide

/-- One loss in eleven samples is below the 10% threshold: Connected. -/
lemma c8_isConnected : connIsConnected [1, 0, 0, 0, 0, 0, 0, 0, 0, 0, 0] = true := by
  simp only [connIsConnected, packetLossPercentage, List.sum_cons, List.sum_nil,
    decide_eq_true_eq]
  norm_num

/-- With the sound toggle off, no connectivity toast is ever emitted. -/
lemma connStep_snd_no_sound (st : ConnState) (lost : Bool) :
    (connStep false st lost).2 = none := by
  simp only [connStep]
  split
  · cases st.verdict with
    | none => rfl
    | some was =>
      simp only []
      split <;> rfl
  · rfl

/-- C8. The claim states the connectivity toast is emitted exactly on a
realized Connected↔Disconnected flip; the code additionally gates the
emission behind the global sound toggle, so a realized flip with sound
disabled emits nothing: from `c8FlipState` (verdict Disconnected) a
reached sample flips the verdict to Connected, yet no toast is
produced. -/
theorem C8_counterexample :
    c8FlipState.verdict = some false
    ∧ (connStep false c8FlipState false).1.verdict = some true
    ∧ (connStep false c8FlipState false).2 = none := by
  refine ⟨rfl, ?_, connStep_snd_no_sound c8FlipState false⟩
  rw [connStep_fst_verdict_ge false c8FlipState false (by rw [c8_window]; decide),
    c8_window, c8_isConnected]

/-- C8 (amended). A connectivity toast is emitted iff the global sound
toggle is enabled, the window has reached 10 samples, and the previous
verdict was non-null and differs from the recomputed one (so never on the
initial `Unknown→*` transition and never on a sample that does not flip
the verdict); the toast carries the new verdict and the loss percentage
rounded to one decimal, and the stored verdict is set to the carried
one. -/
theorem C8_notification (soundEnabled : Bool) (st : ConnState) (lost : Bool) :
    ((connStep soundEnabled st lost).2 ≠ none ↔
      (soundEnabled = true
       ∧ 10 ≤ (connStep soundEnabled st lost).1.samples.length
       ∧ ∃ was, st.verdict = some was
           ∧ was ≠ connIsConnected ((connStep soundEnabled st lost).1.samples)))
    ∧ (∀ n, (connStep soundEnabled st lost).2 = some n →
        n.isConnected = connIsConnected ((connStep soundEnabled st lost).1.samples)
        ∧ n.lossPct = roundTenths (packetLossPercentage ((connStep soundEnabled st lost).1.samples))
        ∧ (connStep soundEnabled st lost).1.verdict = some n.isConnected) := by
  simp only [connStep]
  by_cases h10 : 10 ≤ (jsSliceLast20 (st.samples ++ [bitOf lost])).length
  · simp only [if_pos h10]
    cases hv : st.verdict with
    | none => simp [hv, h10]
    | some was =>
      by_cases hflip : was = connIsConnected (jsSliceLast20 (st.samples ++ [bitOf lost]))
      · simp [hv, hflip]
      · cases soundEnabled with
        | false => simp [hv, hflip]
        | true => simp [hv, hflip, h10]
  · simp only [if_neg h10]
    constructor
    · simp only [ne_eq, not_true_eq_false, false_iff, not_and, not_exists]
      intro _ hlen
      exact absurd hlen h10
    · intro n hn
      simp at hn

/-- C8 witness: a realized flip with sound enabled emits the toast carrying
the new Connected verdict and the loss percentage 100/11 rounded to 9.1,
and the stored verdict equals the carried one. -/
theorem C8_notification_witness :
    c8Notif.isConnected = connIsConnected ((connStep true c8FlipState false).1.samples)
    ∧ c8Notif.lossPct = roundTenths (packetLossPercentage ((connStep true c8FlipState false).1.samples))
    ∧ (connStep true c8FlipState false).1.verdict = some c8Notif.isConnected :=
  (C8_notification true c8FlipState false).2 c8Notif (by
    simp only [connStep, c8_window]
    rw [if_pos (by decide)]
    simp only [c8FlipState, c8_isConnected]
    have hr : roundTenths (packetLossPercentage [1, 0, 0, 0, 0, 0, 0, 0, 0, 0, 0]) = 91 / 10 := by
      simp only [packetLossPercentage, roundTenths, List.sum_cons, List.sum_nil, round_eq]
      norm_num
    simp [hr, c8Notif])

/-- C5. The claim states removing the connectivity-designated target resets
the window to empty samples and an Unknown verdict; `removePanel` only
filters the panel registry and the status record — after removing the
designated target `"1"`, `packetLossHistory` and `internetConnected` keep
their previous values instead of being reset. -/
theorem C5_counterexample :
    c5State.panels = [⟨"1", "192.168.1.1", "Local Gateway"⟩]
    ∧ (removePanel "1" c5State).panels = []
    ∧ (removePanel "1" c5State).packetLossHistory = [0, 1]
    ∧ (removePanel "1" c5State).internetConnected = some true
    ∧ ¬((removePanel "1" c5State).packetLossHistory = []
        ∧ (removePanel "1" c5State).internetConnected = none) := by
  refine ⟨rfl, by decide, by decide, by decide, ?_⟩
  intro h
  exact absurd h.2 (by decide)

/-- C5 (amended). `removePanel` removes the target's registry entry and its
status record entry and leaves the ConnectivityWindow untouched: there is
no reset path for `packetLossHistory` / `internetConnected`, designated
target or not. -/
theorem C5_remove_keeps_window (id : String) (st : IndexState) :
    (removePanel id st).packetLossHistory = st.packetLossHistory
    ∧ (removePanel id st).internetConnected = st.internetConnected
    ∧ (removePanel id st).panels = st.panels.filter (fun panel => panel.id != id)
    ∧ (removePanel id st).panelStatuses = st.panelStatuses.filter (fun e => e.1 != id) :=
  ⟨rfl, rfl, rfl, rfl⟩

/-- C9. The claim states a designated target whose address is edited away
stops feeding the window; editing the address only changes the PingPanel's
component-local target while the registry keeps the creation address, so
status events from the panel keep feeding the window: after editing panel
`"1"` to `8.8.8.8`, its next tick still appends a sample. -/
theorem C9_counterexample :
    (editPanelTarget c9App "1" "8.8.8.8").locals = [⟨"1", "8.8.8.8"⟩]
    ∧ (editPanelTarget c9App "1" "8.8.8.8").index.packetLossHistory = []
    ∧ (appTick (editPanelTarget c9App "1" "8.8.8.8") "1"
        ⟨0, 15, false, FetchOutcome.ok 0⟩).1.index.packetLossHistory = [0] := by
  exact ⟨by decide, rfl, by decide⟩

/-- C9 (amended). The designated-target selection is by the address recorded
in the registry at creation, reached through an id lookup: a status event
feeds the single connectivity window iff the registry entry found for the
event's id has target `'192.168.1.1'` (so several coexisting panels
created with that address all feed the same window), and editing a panel's
address changes neither the registry nor the feeding decision. -/
theorem C9_designation_by_registry_address (app : AppState) (id newTarget eid : String)
    (status : PanelStatus) :
    (editPanelTarget app id newTarget).index = app.index
    ∧ feedsWindow (editPanelTarget app id newTarget).index eid = feedsWindow app.index eid
    ∧ (appStatusEvent app eid status).1.index.packetLossHistory =
        (if feedsWindow app.index eid
         then jsSliceLast20 (app.index.packetLossHistory ++ [bitOf (status != PanelStatus.online)])
         else app.index.packetLossHistory) := by
  refine ⟨rfl, rfl, ?_⟩
  by_cases h : feedsWindow app.index eid = true
  · rw [if_pos h]
    simp only [appStatusEvent, handleStatusChangeConn, if_pos h]
    exact connStep_fst_samples _ _ _
  · rw [if_neg h]
    simp only [appStatusEvent, handleStatusChangeConn, if_neg h]

/-- C10. A "Connection Lost" toast is emitted only when a previously
recorded status exists for the id, it differs from the new status, and the
new status is offline or error; in particular it is never emitted on the
first observed status of a target (whatever that status is), and a
transition back to online never emits it. -/
theorem C10_connection_lost (panels : List Panel) (soundEnabled : Bool)
    (prev : List (String × PanelStatus)) (id : String) (status : PanelStatus) :
    (∀ t, (handleStatusChangeNotify panels soundEnabled prev id status).2 = some t →
        ∃ oldStatus, lookupStatus prev id = some oldStatus
          ∧ oldStatus ≠ status
          ∧ (status = PanelStatus.offline ∨ status = PanelStatus.error))
    ∧ (lookupStatus prev id = none →
        (handleStatusChangeNotify panels soundEnabled prev id status).2 = none)
    ∧ (status = PanelStatus.online →
        (handleStatusChangeNotify panels soundEnabled prev id status).2 = none) := by
  refine ⟨?_, ?_, ?_⟩
  · intro t ht
    cases hold : lookupStatus prev id with
    | none => simp [handleStatusChangeNotify, hold] at ht
    | some oldStatus =>
      by_cases hne : oldStatus = status
      · simp [handleStatusChangeNotify, hold, hne] at ht
      · cases hfind : panels.find? (fun panel => panel.id == id) with
        | none => simp [handleStatusChangeNotify, hold, hne, hfind] at ht
        | some panel =>
          by_cases hoe : status = PanelStatus.offline ∨ status = PanelStatus.error
          · exact ⟨oldStatus, rfl, hne, hoe⟩
          · simp [handleStatusChangeNotify, hold, hne, hfind, hoe] at ht
  · intro h
    simp [handleStatusChangeNotify, h]
  · intro h
    subst h
    cases hold : lookupStatus prev id with
    | none => simp [handleStatusChangeNotify, hold]
    | some oldStatus =>
      cases hfind : panels.find? (fun panel => panel.id == id) with
      | none => simp [handleStatusChangeNotify, hold, hfind]
      | some panel => simp [handleStatusChangeNotify, hold, hfind]

/-- C10 witness: a recorded online status followed by an offline event does
emit the toast, and the emission conditions hold at that input. -/
theorem C10_connection_lost_witness :
    ∃ oldStatus, lookupStatus [("1", PanelStatus.online)] "1" = some oldStatus
      ∧ oldStatus ≠ PanelStatus.offline
      ∧ (PanelStatus.offline = PanelStatus.offline ∨ PanelStatus.offline = PanelStatus.error) :=
  (C10_connection_lost [⟨"1", "8.8.8.8", "Google DNS"⟩] true [("1", PanelStatus.online)]
      "1" PanelStatus.offline).1
    ⟨"Connection Lost", "Google DNS (8.8.8.8) is offline"⟩ (by decide)

end NetWatch
